import Mathlib

/-
Verification of the HabitsTracker calendar state model and its persistence
layer (src/HabitsTracker.py), as a shallow embedding.

The embedding mirrors the source:
* `AppConfig` constants become Lean constants.
* `calendar.monthrange(y, m)[1]` becomes `daysInMonth`.
* `DataManager.save_data` / `DataManager.load_data` become pure functions
  over an explicit `Store` (the file system's data directory), with the
  two-step `open("wb")` + `pickle.dump` write modelled by a `WriteOutcome`
  oracle: the write can succeed, fail before the file is opened, or fail
  after `open(..., "wb")` has already truncated the file (leaving it
  corrupt).
* The rendered calendar body (habit-name Entry widgets plus day-cell
  Labels) becomes a `List RowState`; `_render_calendar_body`,
  `_create_habit_entry`, `_create_day_cell` / `_restore_cell_background`
  and `_collect_current_data` become functions on it.
* The Tk application object becomes `AppState`; the event handlers
  `_toggle_cell_status`, `_save_current_data`, `_update_calendar`,
  `_change_month`, `_change_year`, `_on_update_button_click` and
  `CalendarApp.__init__` become state-transition functions.
Years and months are Python ints, embedded as `Int`.
-/

namespace HabitsTracker

/-! ## AppConfig constants (src/HabitsTracker.py lines 46-73) -/

def MAX_HABIT_ROWS : Nat := 10

def START_ROW_INDEX : Nat := 2

def COLOR_COMPLETED : String := "light green"

def COLOR_DEFAULT : String := "white"

/-- Membership in `AppConfig.YEAR_RANGE = range(2020, 2026)`:
Python `y in range(a, b)` for an int `y` holds iff `a ≤ y < b`. -/
def yearInRange (y : Int) : Bool := 2020 ≤ y && y < 2026

/-! ## calendar.monthrange -/

/-- Gregorian leap-year rule, as used by Python's `calendar` module. -/
def isLeapYear (y : Int) : Bool :=
  (y % 4 == 0 && y % 100 != 0) || (y % 400 == 0)

/-- `calendar.monthrange(y, m)[1]`: the number of days of month `m`
of year `y` (the source only calls it with `1 ≤ m ≤ 12`). -/
def daysInMonth (y m : Int) : Nat :=
  if m = 2 then (if isLeapYear y then 29 else 28)
  else if m = 4 ∨ m = 6 ∨ m = 9 ∨ m = 11 then 30
  else 31

/-! ## Serialized data (the pickled `List[List[Dict[str, Any]]]`) -/

/-- One serialized cell: a Python dict that may carry a `'text'` entry and
a `'bg'` entry.  `_collect_current_data` emits `{'text': …, 'bg': …}` for
the habit-name column and `{'bg': …}` for each day column. -/
structure Cell where
  text : Option String
  bg : Option String
deriving Repr, DecidableEq

/-- Contents of one persisted slot (one `data/habits_{y}_{m}.pkl` file):
either a file that unpickles cleanly to calendar data, or a file whose
read raises (truncated, corrupt, unreadable). -/
inductive Slot
  | good : List (List Cell) → Slot
  | corrupt : Slot
deriving Repr, DecidableEq

/-- The data directory: an association list from the `(year, month)` key
to the slot contents; absent key = the file was never written. -/
abbrev Store := List ((Int × Int) × Slot)

/-- Contents of the file for key `(y, m)`, `none` when it does not exist
(`os.path.exists` is false). -/
def readSlot (s : Store) (y m : Int) : Option Slot :=
  (s.find? (fun e => e.1.1 == y && e.1.2 == m)).map (fun e => e.2)

/-- Replacing the contents of the file for key `(y, m)`. -/
def writeSlot (s : Store) (y m : Int) (v : Slot) : Store :=
  ((y, m), v) :: s

/-- Outcome of the write inside `save_data`'s try block.  The block runs
`open(filename, "wb")` and then `pickle.dump`; an exception can strike
before the file is opened (`failOpen`: the old contents survive) or after
the `"wb"` open has truncated the file (`failDuring`: the slot is left
corrupt). -/
inductive WriteOutcome
  | ok
  | failOpen
  | failDuring
deriving Repr, DecidableEq

/-- `DataManager.save_data` (lines 84-108): refuses empty data with a
`False` result before touching the file; otherwise writes the pickle and
returns `True`, or catches the exception and returns `False`. -/
def save_data (wo : WriteOutcome) (store : Store) (year month : Int)
    (data : List (List Cell)) : Bool × Store :=
  if data = [] then (false, store)
  else
    match wo with
    | WriteOutcome.ok => (true, writeSlot store year month (Slot.good data))
    | WriteOutcome.failOpen => (false, store)
    | WriteOutcome.failDuring => (false, writeSlot store year month Slot.corrupt)

/-- `DataManager.load_data` (lines 110-132): returns the unpickled data
when the file exists and reads cleanly; logs and falls through to `[]`
when the file is missing or the read raises. -/
def load_data (store : Store) (year month : Int) : List (List Cell) :=
  match readSlot store year month with
  | some (Slot.good d) => d
  | some Slot.corrupt => []
  | none => []

/-! ## The rendered calendar body -/

/-- One rendered habit row: the text of its habit-name Entry widget and
the background colors of its day-cell Labels (index `d` is day `d + 1`). -/
structure RowState where
  name : String
  cellBg : List String
deriving Repr, DecidableEq

/-- Habit-name restoration in `_create_habit_entry` (lines 467-502): the
fresh Entry is empty; when row `i` of the loaded data is present and
nonempty and its first cell's `'text'` value is truthy (present and not
the empty string), that text is inserted. -/
def rowName (loaded : List (List Cell)) (i : Nat) : String :=
  match loaded[i]? with
  | none => ""
  | some row =>
    match row[0]? with
    | none => ""
    | some c =>
      match c.text with
      | none => ""
      | some t => if t = "" then "" else t

/-- Day-cell background in `_create_day_cell` / `_restore_cell_background`
(lines 516-566): the fresh Label is `COLOR_DEFAULT`; when row `i` of the
loaded data is present, column `j` is within that row, and the cell dict
has a `'bg'` entry, that color replaces the default. -/
def restoredBg (loaded : List (List Cell)) (i j : Nat) : String :=
  match loaded[i]? with
  | none => COLOR_DEFAULT
  | some row =>
    match row[j]? with
    | none => COLOR_DEFAULT
    | some c =>
      match c.bg with
      | none => COLOR_DEFAULT
      | some b => b

/-- `_render_calendar_body` (lines 664-689): always builds
`MAX_HABIT_ROWS` rows; each row gets an Entry (habit name) and one
day cell per column `j ∈ 1..daysInMonth`. -/
def renderBody (year month : Int) (loaded : List (List Cell)) : List RowState :=
  (List.range MAX_HABIT_ROWS).map (fun i =>
    { name := rowName loaded i
      cellBg := (List.range (daysInMonth year month)).map
        (fun d => restoredBg loaded i (d + 1)) })

/-- Background color a fresh Entry widget reports via
`entry.cget('background')`; the source never configures it, so it is the
toolkit default. -/
def ENTRY_BG : String := "white"

/-- `_collect_current_data` (lines 431-465): for each of the
`MAX_HABIT_ROWS` rows, a head cell `{'text': name, 'bg': …}` (defaulted
when the Entry is missing) followed by one `{'bg': color}` cell per day
column (defaulted when the Label is missing from the grid). -/
def collectData (year month : Int) (rows : List RowState) : List (List Cell) :=
  (List.range MAX_HABIT_ROWS).map (fun i =>
    let head : Cell :=
      match rows[i]? with
      | some r => { text := some r.name, bg := some ENTRY_BG }
      | none => { text := some "", bg := some COLOR_DEFAULT }
    let days : List Cell :=
      (List.range (daysInMonth year month)).map (fun d =>
        match rows[i]? with
        | some r =>
          match r.cellBg[d]? with
          | some b => { text := none, bg := some b }
          | none => { text := none, bg := some COLOR_DEFAULT }
        | none => { text := none, bg := some COLOR_DEFAULT })
    head :: days)

/-! ## The application state and its event handlers -/

/-- The mutable fields of `CalendarApp` the claims are about, plus the
file system (`store`).  `initDone` is the flag set at the end of
`__init__` that gates the implicit saves. -/
structure AppState where
  current_year : Int
  current_month : Int
  initDone : Bool
  grid : List RowState
  store : Store
deriving Repr, DecidableEq

/-- The status-bar messages the modelled handlers write (the
`AppConfig.STATUS_*` strings). -/
inductive StatusMsg
  | saved : Int → Int → StatusMsg
  | saveError
  | emptyData
  | invalidDate
  | invalidInput
deriving Repr, DecidableEq

/-- `_save_current_data` (lines 691-716): skipped before `__init__`
finishes; refuses empty collected data with a status message; otherwise
calls `save_data` for the current key and reports success or failure on
the status bar.  Returns the new state and the status message the handler
itself set (`none` when it set none). -/
def save_current_data (wo : WriteOutcome) (s : AppState) :
    AppState × Option StatusMsg :=
  if s.initDone = false then (s, none)
  else
    let data := collectData s.current_year s.current_month s.grid
    if data = [] then (s, some StatusMsg.emptyData)
    else
      let r := save_data wo s.store s.current_year s.current_month data
      let s2 : AppState := { s with store := r.2 }
      if r.1 then (s2, some (StatusMsg.saved s.current_year s.current_month))
      else (s2, some StatusMsg.saveError)

/-- `_update_calendar` (lines 568-601): persists the current grid first
(only when initialization is done and this is not the first load), then
switches the current key, reloads from the store, and rebuilds the body. -/
def updateCalendar (wo : WriteOutcome) (s : AppState) (year month : Int)
    (isInitialLoad : Bool) : AppState :=
  let s1 := if s.initDone && !isInitialLoad then (save_current_data wo s).1 else s
  let loaded := load_data s1.store year month
  { s1 with
    current_year := year
    current_month := month
    grid := renderBody year month loaded }

/-- The color flip in `_toggle_cell_status` (lines 332-356):
`COLOR_COMPLETED` when the cell was `COLOR_DEFAULT`, `COLOR_DEFAULT`
otherwise. -/
def toggleColor (bg : String) : String :=
  if bg = COLOR_DEFAULT then COLOR_COMPLETED else COLOR_DEFAULT

/-- The completion flag at habit offset `i`, day column `j` of a rendered
body: whether the cell's background is `COLOR_COMPLETED`. -/
def gridFlag (rows : List RowState) (i j : Nat) : Bool :=
  match rows[i]? with
  | none => false
  | some r =>
    match r.cellBg[j - 1]? with
    | none => false
    | some b => b == COLOR_COMPLETED

/-- A mouse click at habit offset `i`, day column `j`.  `Button-1` is
bound (in `_create_day_cell`) only to the day-cell Labels that exist, so
a click at a position with no cell fires no handler and changes nothing;
on an existing cell `_toggle_cell_status` flips its background and then
calls `_save_current_data`. -/
def clickCell (wo : WriteOutcome) (s : AppState) (i j : Nat) :
    AppState × Option StatusMsg :=
  if j = 0 then (s, none)
  else
    match s.grid[i]? with
    | none => (s, none)
    | some r =>
      match r.cellBg[j - 1]? with
      | none => (s, none)
      | some b =>
        let r2 : RowState := { r with cellBg := r.cellBg.set (j - 1) (toggleColor b) }
        let s2 : AppState := { s with grid := s.grid.set i r2 }
        save_current_data wo s2

/-- `_change_month` (lines 210-249): adds the delta, wraps December /
January across the year boundary, and navigates only when the resulting
year lies in `YEAR_RANGE`. -/
def changeMonth (wo : WriteOutcome) (s : AppState) (delta : Int) : AppState :=
  let nm := s.current_month + delta
  let ny := s.current_year
  let p : Int × Int :=
    if nm < 1 then (12, ny - 1)
    else if nm > 12 then (1, ny + 1)
    else (nm, ny)
  if yearInRange p.2 then updateCalendar wo s p.2 p.1 false else s

/-- `_change_year` (lines 237-249): adds the delta and navigates only
when the resulting year lies in `YEAR_RANGE`. -/
def changeYear (wo : WriteOutcome) (s : AppState) (delta : Int) : AppState :=
  let ny := s.current_year + delta
  if yearInRange ny then updateCalendar wo s ny s.current_month false else s

/-- A dropdown selection as seen by `int(var.get())`: a value that parses
to an int, or one that makes `int` raise `ValueError`. -/
inductive Sel
  | num : Int → Sel
  | nonNumeric : Sel
deriving Repr, DecidableEq

/-- `_on_update_button_click` (lines 718-737): a `ValueError` from either
`int(...)` call reports `STATUS_INVALID_INPUT`; a parsed pair outside
`YEAR_RANGE × [1, 12]` reports `STATUS_INVALID_DATE`; otherwise
`_update_calendar` runs.  Returns the new state and the error status the
handler itself set (`none` when navigation proceeded). -/
def onUpdateButtonClick (wo : WriteOutcome) (s : AppState) (ySel mSel : Sel) :
    AppState × Option StatusMsg :=
  match ySel, mSel with
  | Sel.num y, Sel.num m =>
    if !(yearInRange y) || !(1 ≤ m && m ≤ 12) then (s, some StatusMsg.invalidDate)
    else (updateCalendar wo s y m false, none)
  | _, _ => (s, some StatusMsg.invalidInput)

/-- `CalendarApp.__init__` (lines 151-197): the current key starts as
`datetime.now()`'s year and month (no validation), the first
`_update_calendar` runs with `is_initial_load=True` while the init flag
is still down, and the flag is raised afterwards. -/
def initApp (wo : WriteOutcome) (store : Store) (nowYear nowMonth : Int) :
    AppState :=
  let s0 : AppState :=
    { current_year := nowYear
      current_month := nowMonth
      initDone := false
      grid := []
      store := store }
  let s1 := updateCalendar wo s0 nowYear nowMonth true
  { s1 with initDone := true }

/-! ## Helper lemmas -/

theorem readSlot_writeSlot (s : Store) (y m : Int) (v : Slot) :
    readSlot (writeSlot s y m v) y m = some v := by
  simp [readSlot, writeSlot, List.find?]

theorem collectData_ne_nil (y m : Int) (rows : List RowState) :
    collectData y m rows ≠ [] := by
  simp [collectData, MAX_HABIT_ROWS, List.range_succ]

theorem renderBody_length (y m : Int) (loaded : List (List Cell)) :
    (renderBody y m loaded).length = MAX_HABIT_ROWS := by
  simp [renderBody]

theorem renderBody_cellBg_length (y m : Int) (loaded : List (List Cell)) :
    ∀ r ∈ renderBody y m loaded, r.cellBg.length = daysInMonth y m := by
  intro r hr
  simp only [renderBody, List.mem_map, List.mem_range] at hr
  obtain ⟨i, _, rfl⟩ := hr
  simp

theorem collectData_getElem (y m : Int) (rows : List RowState) (i : Nat)
    (h10 : i < MAX_HABIT_ROWS) (hi : i < rows.length) :
    (collectData y m rows)[i]? =
      some (({ text := some (rows[i]).name, bg := some ENTRY_BG } : Cell) ::
        (List.range (daysInMonth y m)).map (fun d =>
          match (rows[i]).cellBg[d]? with
          | some b => ({ text := none, bg := some b } : Cell)
          | none => ({ text := none, bg := some COLOR_DEFAULT } : Cell))) := by
  have hrow : rows[i]? = some (rows[i]) := List.getElem?_eq_getElem hi
  simp only [collectData, List.getElem?_map, List.getElem?_range, h10,
    Option.map_some', hrow]

theorem rowName_collect (y m : Int) (rows : List RowState) (i : Nat)
    (h10 : i < MAX_HABIT_ROWS) (hi : i < rows.length) :
    rowName (collectData y m rows) i = (rows[i]).name := by
  rw [rowName, collectData_getElem y m rows i h10 hi]
  simp only [List.getElem?_cons_zero]
  by_cases hname : (rows[i]).name = ""
  · simp [hname]
  · simp [hname]

theorem restoredBg_collect (y m : Int) (rows : List RowState) (i d : Nat)
    (h10 : i < MAX_HABIT_ROWS) (hi : i < rows.length)
    (hd : d < (rows[i]).cellBg.length) (hdm : d < daysInMonth y m) :
    restoredBg (collectData y m rows) i (d + 1) = (rows[i]).cellBg[d] := by
  rw [restoredBg, collectData_getElem y m rows i h10 hi]
  have hcb : (rows[i]).cellBg[d]? = some ((rows[i]).cellBg[d]) :=
    List.getElem?_eq_getElem hd
  simp [List.getElem?_map, List.getElem?_range, hdm, hcb]

/-- Rebuilding the body from its own collected data is the identity on
well-shaped grids. -/
theorem render_collect (y m : Int) (rows : List RowState)
    (hlen : rows.length = MAX_HABIT_ROWS)
    (hdays : ∀ r ∈ rows, r.cellBg.length = daysInMonth y m) :
    renderBody y m (collectData y m rows) = rows := by
  apply List.ext_getElem
  · simp [renderBody, hlen]
  · intro i h1 h2
    have h10 : i < MAX_HABIT_ROWS := by simpa [renderBody] using h1
    have hcbl : (rows[i]).cellBg.length = daysInMonth y m :=
      hdays _ (List.getElem_mem h2)
    have hrender : (renderBody y m (collectData y m rows))[i] =
        { name := rowName (collectData y m rows) i
          cellBg := (List.range (daysInMonth y m)).map
            (fun d => restoredBg (collectData y m rows) i (d + 1)) } := by
      simp [renderBody]
    rw [hrender]
    have hflags : (List.range (daysInMonth y m)).map
        (fun d => restoredBg (collectData y m rows) i (d + 1)) = (rows[i]).cellBg := by
      apply List.ext_getElem
      · simp [hcbl]
      · intro d hd1 hd2
        have hdm : d < daysInMonth y m := by simpa using hd1
        simp only [List.getElem_map, List.getElem_range]
        exact restoredBg_collect y m rows i d h10 h2 hd2 hdm
    rw [rowName_collect y m rows i h10 h2, hflags]

/-! ## Concrete fixtures used by the witnesses -/

/-- A small concrete application state. -/
def tinyState : AppState :=
  { current_year := 2024
    current_month := 1
    initDone := true
    grid := [{ name := "run", cellBg := ["white", "light green", "white"] }]
    store := [] }

/-- A small concrete serialized snapshot. -/
def demoData : List (List Cell) :=
  [[{ text := some "Run", bg := some "white" }, { text := none, bg := some "light green" }]]

/-- A store holding one good snapshot and one corrupt file. -/
def demoStore : Store :=
  [((2024, 2), Slot.good demoData), ((2023, 3), Slot.corrupt)]

/-- A well-shaped February-2024 grid (10 rows of 29 flags). -/
def demoRows : List RowState :=
  List.replicate 10
    { name := "Exercise", cellBg := (List.replicate 29 COLOR_DEFAULT).set 4 COLOR_COMPLETED }

/-! ## Claims -/

/-- C10: for every key and any write outcome, `save_data` called with the
empty data list returns a failure result and leaves the store — in
particular any previously stored snapshot for that key — unchanged. -/
theorem save_empty_rejected (wo : WriteOutcome) (store : Store) (y m : Int) :
    save_data wo store y m [] = (false, store) := by
  simp [save_data]

/-- C5: `load_data` returns the stored snapshot when the slot exists and
deserializes cleanly, and the absent result `[]` — not an error, and
without raising (the function is total) — both when the slot was never
written and when the stored file is corrupt. -/
theorem load_absent_semantics (store : Store) (y m : Int) :
    (∀ d, readSlot store y m = some (Slot.good d) → load_data store y m = d) ∧
    (readSlot store y m = none → load_data store y m = []) ∧
    (readSlot store y m = some Slot.corrupt → load_data store y m = []) := by
  refine ⟨fun d h => ?_, fun h => ?_, fun h => ?_⟩ <;> simp [load_data, h]

theorem load_absent_semantics_witness :
    load_data demoStore 2024 2 = demoData ∧
    load_data demoStore 2020 1 = [] ∧
    load_data demoStore 2023 3 = [] :=
  ⟨(load_absent_semantics demoStore 2024 2).1 demoData (by decide),
   (load_absent_semantics demoStore 2020 1).2.1 (by decide),
   (load_absent_semantics demoStore 2023 3).2.2 (by decide)⟩

/-- Validity of an update-button selection pair: both parse and lie in
`YEAR_RANGE × [1, 12]`. -/
def selValid : Sel → Sel → Bool
  | Sel.num y, Sel.num m => yearInRange y && (1 ≤ m && m ≤ 12)
  | _, _ => false

/-- C4: a navigation request whose selection is non-numeric or out of
range (year outside 2020-2025, month outside 1-12) is rejected: an input
error status is reported and the state — active grid included — is left
completely unchanged. -/
theorem invalid_navigation_rejected (wo : WriteOutcome) (s : AppState)
    (ySel mSel : Sel) (h : selValid ySel mSel = false) :
    (onUpdateButtonClick wo s ySel mSel).1 = s ∧
    ((onUpdateButtonClick wo s ySel mSel).2 = some StatusMsg.invalidDate ∨
     (onUpdateButtonClick wo s ySel mSel).2 = some StatusMsg.invalidInput) := by
  cases ySel with
  | nonNumeric => simp [onUpdateButtonClick]
  | num y =>
    cases mSel with
    | nonNumeric => simp [onUpdateButtonClick]
    | num m =>
      cases hy : yearInRange y <;> cases hm : (1 ≤ m && m ≤ 12 : Bool) <;>
        simp [onUpdateButtonClick, selValid, hy, hm] at h ⊢

theorem invalid_navigation_rejected_witness :
    (onUpdateButtonClick WriteOutcome.ok tinyState (Sel.num 2019) (Sel.num 5)).1 = tinyState ∧
    ((onUpdateButtonClick WriteOutcome.ok tinyState (Sel.num 2019) (Sel.num 5)).2
        = some StatusMsg.invalidDate ∨
     (onUpdateButtonClick WriteOutcome.ok tinyState (Sel.num 2019) (Sel.num 5)).2
        = some StatusMsg.invalidInput) :=
  invalid_navigation_rejected WriteOutcome.ok tinyState (Sel.num 2019) (Sel.num 5) (by decide)

/-- C2: for every valid (year, month) — year in 2020-2025, month in
1-12 — a navigation builds a grid with exactly 10 habit rows, each with
exactly `daysInMonth year month` day flags, regardless of the state and
of how many habits the loaded data names. -/
theorem loadMonth_grid_shape (wo : WriteOutcome) (s : AppState)
    (year month : Int) (isInitialLoad : Bool)
    (hy : 2020 ≤ year ∧ year ≤ 2025) (hm : 1 ≤ month ∧ month ≤ 12) :
    ((updateCalendar wo s year month isInitialLoad).grid).length = 10 ∧
    ∀ r ∈ (updateCalendar wo s year month isInitialLoad).grid,
      r.cellBg.length = daysInMonth year month := by
  have hgrid : (updateCalendar wo s year month isInitialLoad).grid
      = renderBody year month (load_data
          (if s.initDone && !isInitialLoad then (save_current_data wo s).1 else s).store
          year month) := rfl
  rw [hgrid]
  exact ⟨renderBody_length year month _, renderBody_cellBg_length year month _⟩

theorem loadMonth_grid_shape_witness :
    ((updateCalendar WriteOutcome.ok tinyState 2024 2 false).grid).length = 10 ∧
    ∀ r ∈ (updateCalendar WriteOutcome.ok tinyState 2024 2 false).grid,
      r.cellBg.length = daysInMonth 2024 2 :=
  loadMonth_grid_shape WriteOutcome.ok tinyState 2024 2 false (by decide) (by decide)

/-- C1: for every well-shaped in-memory grid and valid (year, month) key,
saving the collected snapshot and then loading that key yields a snapshot
from which a grid with the same habit names and the same per-day
completion flags is rebuilt (the write completing, nothing mutating in
between). -/
theorem save_load_roundtrip (y m : Int) (rows : List RowState) (store : Store)
    (hy : 2020 ≤ y ∧ y ≤ 2025) (hm : 1 ≤ m ∧ m ≤ 12)
    (hlen : rows.length = MAX_HABIT_ROWS)
    (hdays : ∀ r ∈ rows, r.cellBg.length = daysInMonth y m) :
    (save_data WriteOutcome.ok store y m (collectData y m rows)).1 = true ∧
    (renderBody y m (load_data
        (save_data WriteOutcome.ok store y m (collectData y m rows)).2 y m)).map
        RowState.name
      = rows.map RowState.name ∧
    (renderBody y m (load_data
        (save_data WriteOutcome.ok store y m (collectData y m rows)).2 y m)).map
        (fun r => r.cellBg.map (fun b => b == COLOR_COMPLETED))
      = rows.map (fun r => r.cellBg.map (fun b => b == COLOR_COMPLETED)) := by
  have hne := collectData_ne_nil y m rows
  have hsave : save_data WriteOutcome.ok store y m (collectData y m rows)
      = (true, writeSlot store y m (Slot.good (collectData y m rows))) := by
    simp [save_data, hne]
  have hload : load_data (writeSlot store y m (Slot.good (collectData y m rows))) y m
      = collectData y m rows := by
    simp [load_data, readSlot_writeSlot]
  rw [hsave]
  simp [hload, render_collect y m rows hlen hdays]

theorem save_load_roundtrip_witness :
    (save_data WriteOutcome.ok [] 2024 2 (collectData 2024 2 demoRows)).1 = true ∧
    (renderBody 2024 2 (load_data
        (save_data WriteOutcome.ok [] 2024 2 (collectData 2024 2 demoRows)).2 2024 2)).map
        RowState.name
      = demoRows.map RowState.name ∧
    (renderBody 2024 2 (load_data
        (save_data WriteOutcome.ok [] 2024 2 (collectData 2024 2 demoRows)).2 2024 2)).map
        (fun r => r.cellBg.map (fun b => b == COLOR_COMPLETED))
      = demoRows.map (fun r => r.cellBg.map (fun b => b == COLOR_COMPLETED)) :=
  save_load_roundtrip 2024 2 demoRows [] (by decide) (by decide) (by decide) (by decide)

/-! ## More helper lemmas (toggle and save) -/

theorem lt_of_getElem?_some {α : Type} {l : List α} {i : Nat} {a : α}
    (h : l[i]? = some a) : i < l.length := by
  by_contra hc
  push_neg at hc
  rw [List.getElem?_eq_none hc] at h
  cases h

theorem save_current_data_fields (wo : WriteOutcome) (s : AppState) :
    (save_current_data wo s).1.grid = s.grid ∧
    (save_current_data wo s).1.current_year = s.current_year ∧
    (save_current_data wo s).1.current_month = s.current_month ∧
    (save_current_data wo s).1.initDone = s.initDone := by
  rw [save_current_data]
  split
  · simp
  · dsimp only
    split
    · simp
    · split <;> simp

theorem save_current_data_ok (s : AppState) (hinit : s.initDone = true) :
    save_current_data WriteOutcome.ok s =
      ({ s with store := writeSlot s.store s.current_year s.current_month
                    (Slot.good (collectData s.current_year s.current_month s.grid)) },
       some (StatusMsg.saved s.current_year s.current_month)) := by
  rw [save_current_data]
  simp [hinit, collectData_ne_nil, save_data]

theorem save_current_data_fail (wo : WriteOutcome) (s : AppState)
    (hinit : s.initDone = true) (hwo : wo ≠ WriteOutcome.ok) :
    (save_current_data wo s).2 = some StatusMsg.saveError := by
  rw [save_current_data]
  cases wo with
  | ok => exact absurd rfl hwo
  | failOpen => simp [hinit, collectData_ne_nil, save_data]
  | failDuring => simp [hinit, collectData_ne_nil, save_data]

theorem clickCell_eq (wo : WriteOutcome) (s : AppState) (i j : Nat)
    (r : RowState) (b : String) (hj0 : j ≠ 0)
    (hr : s.grid[i]? = some r) (hb : r.cellBg[j - 1]? = some b) :
    clickCell wo s i j =
      save_current_data wo
        { s with grid := s.grid.set i
                   { r with cellBg := r.cellBg.set (j - 1) (toggleColor b) } } := by
  rw [clickCell]
  simp [hj0, hr, hb]

theorem gridFlag_of_getElem (rows : List RowState) (i j : Nat) (r : RowState)
    (b : String) (hr : rows[i]? = some r) (hb : r.cellBg[j - 1]? = some b) :
    gridFlag rows i j = (b == COLOR_COMPLETED) := by
  simp only [gridFlag, hr, hb]

theorem gridFlag_toggled (rows : List RowState) (i j : Nat) (r : RowState)
    (c : String) (hr : rows[i]? = some r) (hd : j - 1 < r.cellBg.length) :
    gridFlag (rows.set i { r with cellBg := r.cellBg.set (j - 1) c }) i j
      = (c == COLOR_COMPLETED) := by
  have hi : i < rows.length := lt_of_getElem?_some hr
  have h1 : (rows.set i { r with cellBg := r.cellBg.set (j - 1) c })[i]? =
      some { r with cellBg := r.cellBg.set (j - 1) c } := by
    simp [List.getElem?_set, hi]
  have h2 : (r.cellBg.set (j - 1) c)[j - 1]? = some c := by
    simp [List.getElem?_set, hd]
  simp only [gridFlag, h1, h2]

/-- C3 counterexample: a toggle aimed at out-of-range indices (habit row
5 of a 1-row grid) is indeed a no-op on the state, but no error is
reported — no cell widget exists at that position, so no handler runs and
no status is set, against the claim's "no-op that reports an error". -/
theorem toggle_oob_silent_cex :
    clickCell WriteOutcome.ok tinyState 5 1 = (tinyState, none) := by decide

/-- C3 (amended): toggling an in-range (row, day) position whose cell
holds one of the two colors the application assigns flips the completion
flag at that position (the new flag value is the negation of the old one,
observable at the cell), leaves the active key unchanged, and a
successful write persists the active grid; out-of-range positions are a
silent no-op, with no error report and no returned value. -/
theorem toggle_flips_and_persists (wo : WriteOutcome) (s : AppState)
    (i j : Nat) (r : RowState) (b : String)
    (hr : s.grid[i]? = some r) (hj : 1 ≤ j) (hb : r.cellBg[j - 1]? = some b)
    (hcolor : b = COLOR_DEFAULT ∨ b = COLOR_COMPLETED)
    (hinit : s.initDone = true) :
    gridFlag (clickCell wo s i j).1.grid i j = !(gridFlag s.grid i j) ∧
    (clickCell wo s i j).1.current_year = s.current_year ∧
    (clickCell wo s i j).1.current_month = s.current_month ∧
    (wo = WriteOutcome.ok →
      readSlot (clickCell wo s i j).1.store s.current_year s.current_month
        = some (Slot.good (collectData s.current_year s.current_month
                  (clickCell wo s i j).1.grid))) := by
  have hj0 : j ≠ 0 := by omega
  have hd : j - 1 < r.cellBg.length := lt_of_getElem?_some hb
  have hclick := clickCell_eq wo s i j r b hj0 hr hb
  obtain ⟨hg, hy2, hm2, _⟩ := save_current_data_fields wo
    { s with grid := s.grid.set i { r with cellBg := r.cellBg.set (j - 1) (toggleColor b) } }
  have hgrid : (clickCell wo s i j).1.grid
      = s.grid.set i { r with cellBg := r.cellBg.set (j - 1) (toggleColor b) } := by
    rw [hclick]; exact hg
  refine ⟨?_, ?_, ?_, ?_⟩
  · rw [hgrid, gridFlag_toggled s.grid i j r (toggleColor b) hr hd,
        gridFlag_of_getElem s.grid i j r b hr hb]
    rcases hcolor with rfl | rfl <;> decide
  · rw [hclick]; exact hy2
  · rw [hclick]; exact hm2
  · intro hwo
    subst hwo
    rw [hgrid, hclick]
    rw [save_current_data_ok
        { s with
            grid := s.grid.set i { r with cellBg := r.cellBg.set (j - 1) (toggleColor b) } }
        hinit]
    exact readSlot_writeSlot _ _ _ _

theorem toggle_flips_and_persists_witness :
    gridFlag (clickCell WriteOutcome.ok tinyState 0 1).1.grid 0 1
      = !(gridFlag tinyState.grid 0 1) ∧
    (clickCell WriteOutcome.ok tinyState 0 1).1.current_year = tinyState.current_year ∧
    (clickCell WriteOutcome.ok tinyState 0 1).1.current_month = tinyState.current_month ∧
    (WriteOutcome.ok = WriteOutcome.ok →
      readSlot (clickCell WriteOutcome.ok tinyState 0 1).1.store tinyState.current_year
          tinyState.current_month
        = some (Slot.good (collectData tinyState.current_year tinyState.current_month
                  (clickCell WriteOutcome.ok tinyState 0 1).1.grid))) :=
  toggle_flips_and_persists WriteOutcome.ok tinyState 0 1
    { name := "run", cellBg := ["white", "light green", "white"] } "white"
    (by decide) (by decide) (by decide) (by decide) (by decide)

/-- C8: toggling the same in-range (row, day) position twice in
succession returns the completion flag there to the value it had before
the first toggle (cells hold one of the two colors the application
assigns). -/
theorem toggle_twice_restores (wo : WriteOutcome) (s : AppState)
    (i j : Nat) (r : RowState) (b : String)
    (hr : s.grid[i]? = some r) (hj : 1 ≤ j) (hb : r.cellBg[j - 1]? = some b)
    (hcolor : b = COLOR_DEFAULT ∨ b = COLOR_COMPLETED)
    (hinit : s.initDone = true) :
    gridFlag (clickCell wo (clickCell wo s i j).1 i j).1.grid i j
      = gridFlag s.grid i j := by
  have hj0 : j ≠ 0 := by omega
  have hi : i < s.grid.length := lt_of_getElem?_some hr
  have hd : j - 1 < r.cellBg.length := lt_of_getElem?_some hb
  have hclick1 := clickCell_eq wo s i j r b hj0 hr hb
  have hgrid1 : (clickCell wo s i j).1.grid
      = s.grid.set i { r with cellBg := r.cellBg.set (j - 1) (toggleColor b) } := by
    rw [hclick1]
    exact (save_current_data_fields wo
      { s with
          grid := s.grid.set i { r with cellBg := r.cellBg.set (j - 1) (toggleColor b) } }).1
  have hr2 : (clickCell wo s i j).1.grid[i]? =
      some { r with cellBg := r.cellBg.set (j - 1) (toggleColor b) } := by
    rw [hgrid1]
    simp [List.getElem?_set, hi]
  have hb2 : (r.cellBg.set (j - 1) (toggleColor b))[j - 1]? = some (toggleColor b) := by
    simp [List.getElem?_set, hd]
  have hd2 : j - 1 < (r.cellBg.set (j - 1) (toggleColor b)).length := by
    simpa using hd
  have hclick2 := clickCell_eq wo (clickCell wo s i j).1 i j
    { r with cellBg := r.cellBg.set (j - 1) (toggleColor b) } (toggleColor b) hj0 hr2 hb2
  have hgrid2 : (clickCell wo (clickCell wo s i j).1 i j).1.grid
      = (clickCell wo s i j).1.grid.set i
          { r with cellBg := (r.cellBg.set (j - 1) (toggleColor b)).set (j - 1)
                               (toggleColor (toggleColor b)) } := by
    rw [hclick2]
    exact (save_current_data_fields wo _).1
  rw [hgrid2, gridFlag_toggled _ i j
        { r with cellBg := r.cellBg.set (j - 1) (toggleColor b) }
        (toggleColor (toggleColor b)) hr2 hd2,
      gridFlag_of_getElem s.grid i j r b hr hb]
  rcases hcolor with rfl | rfl <;> decide

theorem toggle_twice_restores_witness :
    gridFlag (clickCell WriteOutcome.ok
        (clickCell WriteOutcome.ok tinyState 0 2).1 0 2).1.grid 0 2
      = gridFlag tinyState.grid 0 2 :=
  toggle_twice_restores WriteOutcome.ok tinyState 0 2
    { name := "run", cellBg := ["white", "light green", "white"] } "light green"
    (by decide) (by decide) (by decide) (by decide) (by decide)

/-- C6 counterexample: the overwrite is not atomic.  `save_data` runs
`open(filename, "wb")` — which truncates any existing file — and then
`pickle.dump`; when the dump fails, the save reports failure, yet the
previously stored snapshot for the key is destroyed: before the failed
save the key loaded `demoData`, afterwards the slot is corrupt and loads
as absent. -/
theorem save_nonatomic_cex :
    (save_data WriteOutcome.failDuring demoStore 2024 2 demoData).1 = false ∧
    load_data (save_data WriteOutcome.failDuring demoStore 2024 2 demoData).2 2024 2 = [] ∧
    load_data demoStore 2024 2 = demoData := by decide

/-- C6 (amended): a successful save overwrites the slot with the snapshot
and reports success; any failed write reports failure (never raises), and
the caller `_save_current_data` keeps the in-memory grid and active key
intact, surfaces a save-error status, and the session continues — but the
overwrite is not atomic: a failure after the truncating open destroys the
slot's previous content (see the counterexample). -/
theorem save_failure_reported (wo : WriteOutcome) (s : AppState) (store : Store)
    (y m : Int) (data : List (List Cell)) (hd : data ≠ [])
    (hinit : s.initDone = true) (hwo : wo ≠ WriteOutcome.ok) :
    (save_data WriteOutcome.ok store y m data).1 = true ∧
    readSlot (save_data WriteOutcome.ok store y m data).2 y m = some (Slot.good data) ∧
    (save_data wo store y m data).1 = false ∧
    (save_current_data wo s).2 = some StatusMsg.saveError ∧
    (save_current_data wo s).1.grid = s.grid ∧
    (save_current_data wo s).1.current_year = s.current_year ∧
    (save_current_data wo s).1.current_month = s.current_month := by
  obtain ⟨hg, hy2, hm2, _⟩ := save_current_data_fields wo s
  refine ⟨?_, ?_, ?_, save_current_data_fail wo s hinit hwo, hg, hy2, hm2⟩
  · simp [save_data, hd]
  · simp [save_data, hd, readSlot_writeSlot]
  · cases wo with
    | ok => exact absurd rfl hwo
    | failOpen => simp [save_data, hd]
    | failDuring => simp [save_data, hd]

theorem save_failure_reported_witness :
    (save_data WriteOutcome.ok [] 2024 1 demoData).1 = true ∧
    readSlot (save_data WriteOutcome.ok [] 2024 1 demoData).2 2024 1
      = some (Slot.good demoData) ∧
    (save_data WriteOutcome.failOpen [] 2024 1 demoData).1 = false ∧
    (save_current_data WriteOutcome.failOpen tinyState).2 = some StatusMsg.saveError ∧
    (save_current_data WriteOutcome.failOpen tinyState).1.grid = tinyState.grid ∧
    (save_current_data WriteOutcome.failOpen tinyState).1.current_year
      = tinyState.current_year ∧
    (save_current_data WriteOutcome.failOpen tinyState).1.current_month
      = tinyState.current_month :=
  save_failure_reported WriteOutcome.failOpen tinyState [] 2024 1 demoData
    (by decide) (by decide) (by decide)

/-- C7: a valid navigation persists the currently active grid first, at
the still-current key (and a first-load navigation writes nothing to the
store); then the snapshot for the new key is read from the store and the
new grid is built from it, with an empty name and all-default (false)
flags for a missing row and the default color for any missing day. -/
theorem navigation_sequence (wo : WriteOutcome) (s : AppState) (y m : Int)
    (hinit : s.initDone = true) :
    (wo = WriteOutcome.ok →
      readSlot (updateCalendar wo s y m false).store s.current_year s.current_month
        = some (Slot.good (collectData s.current_year s.current_month s.grid))) ∧
    (updateCalendar wo s y m true).store = s.store ∧
    (updateCalendar wo s y m false).current_year = y ∧
    (updateCalendar wo s y m false).current_month = m ∧
    (updateCalendar wo s y m false).grid
      = renderBody y m (load_data (updateCalendar wo s y m false).store y m) ∧
    (∀ loaded : List (List Cell), ∀ i, i < MAX_HABIT_ROWS → loaded[i]? = none →
      (renderBody y m loaded)[i]? =
        some { name := "", cellBg := List.replicate (daysInMonth y m) COLOR_DEFAULT }) ∧
    (∀ loaded : List (List Cell), ∀ i row, ∀ j, loaded[i]? = some row →
      row.length ≤ j → restoredBg loaded i j = COLOR_DEFAULT) := by
  refine ⟨?_, ?_, rfl, rfl, rfl, ?_, ?_⟩
  · intro hwo
    subst hwo
    have hstore : (updateCalendar WriteOutcome.ok s y m false).store
        = (save_current_data WriteOutcome.ok s).1.store := by
      rw [updateCalendar, hinit]
      rfl
    rw [hstore, save_current_data_ok s hinit]
    exact readSlot_writeSlot _ _ _ _
  · rw [updateCalendar]
    simp
  · intro loaded i h10 hnone
    have hget : (renderBody y m loaded)[i]? =
        some { name := rowName loaded i
               cellBg := (List.range (daysInMonth y m)).map
                           (fun d => restoredBg loaded i (d + 1)) } := by
      simp [renderBody, List.getElem?_map, List.getElem?_range, h10]
    rw [hget]
    have hname : rowName loaded i = "" := by rw [rowName, hnone]
    have hbg : ∀ d, restoredBg loaded i (d + 1) = COLOR_DEFAULT := by
      intro d; rw [restoredBg, hnone]
    have hrep : (List.range (daysInMonth y m)).map (fun d => restoredBg loaded i (d + 1))
        = List.replicate (daysInMonth y m) COLOR_DEFAULT := by
      rw [List.map_congr_left (fun d _ => hbg d)]
      simp [List.map_const']
    rw [hname, hrep]
  · intro loaded i row j hsome hlen
    simp only [restoredBg, hsome, List.getElem?_eq_none hlen]

theorem navigation_sequence_witness :
    (WriteOutcome.ok = WriteOutcome.ok →
      readSlot (updateCalendar WriteOutcome.ok tinyState 2024 3 false).store
          tinyState.current_year tinyState.current_month
        = some (Slot.good (collectData tinyState.current_year tinyState.current_month
                  tinyState.grid))) ∧
    (updateCalendar WriteOutcome.ok tinyState 2024 3 true).store = tinyState.store ∧
    (updateCalendar WriteOutcome.ok tinyState 2024 3 false).current_year = 2024 ∧
    (updateCalendar WriteOutcome.ok tinyState 2024 3 false).current_month = 3 ∧
    (updateCalendar WriteOutcome.ok tinyState 2024 3 false).grid
      = renderBody 2024 3 (load_data
          (updateCalendar WriteOutcome.ok tinyState 2024 3 false).store 2024 3) ∧
    (∀ loaded : List (List Cell), ∀ i, i < MAX_HABIT_ROWS → loaded[i]? = none →
      (renderBody 2024 3 loaded)[i]? =
        some { name := "", cellBg := List.replicate (daysInMonth 2024 3) COLOR_DEFAULT }) ∧
    (∀ loaded : List (List Cell), ∀ i row, ∀ j, loaded[i]? = some row →
      row.length ≤ j → restoredBg loaded i j = COLOR_DEFAULT) :=
  navigation_sequence WriteOutcome.ok tinyState 2024 3 (by decide)

/-- The active key lies in the fixed range 2020-2025 × 1-12. -/
def dateInRange (s : AppState) : Prop :=
  2020 ≤ s.current_year ∧ s.current_year ≤ 2025 ∧
    1 ≤ s.current_month ∧ s.current_month ≤ 12

instance (s : AppState) : Decidable (dateInRange s) := by
  unfold dateInRange
  infer_instance

theorem yearInRange_bounds (y : Int) (h : yearInRange y = true) :
    2020 ≤ y ∧ y ≤ 2025 := by
  simp [yearInRange] at h
  omega

theorem dateInRange_update (wo : WriteOutcome) (s : AppState) (y m : Int)
    (b : Bool) (hy : yearInRange y = true) (hm : 1 ≤ m ∧ m ≤ 12) :
    dateInRange (updateCalendar wo s y m b) := by
  have hb := yearInRange_bounds y hy
  refine ⟨?_, ?_, ?_, ?_⟩ <;> simp [updateCalendar] <;> omega

/-- C9 counterexample: session startup adopts the wall clock's date with
no validation — a session started while the clock reads May 2026 has
active year 2026, outside the fixed range 2020-2025. -/
theorem startup_unvalidated_cex :
    (initApp WriteOutcome.ok [] 2026 5).current_year = 2026 ∧
    yearInRange 2026 = false := ⟨rfl, rfl⟩

/-- C9 (amended): every user navigation operation — month arrows, year
arrows, the update button — keeps the active (year, month) inside
2020-2025 × 1-12, and startup establishes it whenever the wall-clock date
lies in that range; startup itself validates nothing, so the restriction
can fail at startup when the clock's date is outside the range (see the
counterexample). -/
theorem navigation_preserves_range (wo : WriteOutcome) (s : AppState)
    (hs : dateInRange s) (delta : Int) (ySel mSel : Sel)
    (store : Store) (nowYear nowMonth : Int)
    (hnow : 2020 ≤ nowYear ∧ nowYear ≤ 2025 ∧ 1 ≤ nowMonth ∧ nowMonth ≤ 12) :
    dateInRange (changeMonth wo s delta) ∧
    dateInRange (changeYear wo s delta) ∧
    dateInRange (onUpdateButtonClick wo s ySel mSel).1 ∧
    dateInRange (initApp wo store nowYear nowMonth) := by
  obtain ⟨hy1, hy2, hm1, hm2⟩ := hs
  refine ⟨?_, ?_, ?_, ?_⟩
  · by_cases h1 : s.current_month + delta < 1
    · by_cases hg : yearInRange (s.current_year - 1) = true
      · have heq : changeMonth wo s delta
            = updateCalendar wo s (s.current_year - 1) 12 false := by
          simp [changeMonth, h1, hg]
        rw [heq]
        exact dateInRange_update _ _ _ _ _ hg ⟨by omega, by omega⟩
      · have heq : changeMonth wo s delta = s := by
          simp [changeMonth, h1, hg]
        rw [heq]
        exact ⟨hy1, hy2, hm1, hm2⟩
    · by_cases h2 : s.current_month + delta > 12
      · by_cases hg : yearInRange (s.current_year + 1) = true
        · have heq : changeMonth wo s delta
              = updateCalendar wo s (s.current_year + 1) 1 false := by
            simp [changeMonth, h1, h2, hg]
          rw [heq]
          exact dateInRange_update _ _ _ _ _ hg ⟨by omega, by omega⟩
        · have heq : changeMonth wo s delta = s := by
            simp [changeMonth, h1, h2, hg]
          rw [heq]
          exact ⟨hy1, hy2, hm1, hm2⟩
      · by_cases hg : yearInRange s.current_year = true
        · have heq : changeMonth wo s delta
              = updateCalendar wo s s.current_year (s.current_month + delta) false := by
            simp [changeMonth, h1, h2, hg]
          rw [heq]
          exact dateInRange_update _ _ _ _ _ hg ⟨by omega, by omega⟩
        · have heq : changeMonth wo s delta = s := by
            simp [changeMonth, h1, h2, hg]
          rw [heq]
          exact ⟨hy1, hy2, hm1, hm2⟩
  · by_cases hg : yearInRange (s.current_year + delta) = true
    · have heq : changeYear wo s delta
          = updateCalendar wo s (s.current_year + delta) s.current_month false := by
        simp [changeYear, hg]
      rw [heq]
      exact dateInRange_update _ _ _ _ _ hg ⟨hm1, hm2⟩
    · have heq : changeYear wo s delta = s := by
        simp [changeYear, hg]
      rw [heq]
      exact ⟨hy1, hy2, hm1, hm2⟩
  · cases ySel with
    | nonNumeric => exact ⟨hy1, hy2, hm1, hm2⟩
    | num yv =>
      cases mSel with
      | nonNumeric => exact ⟨hy1, hy2, hm1, hm2⟩
      | num mv =>
        rw [onUpdateButtonClick]
        split
        · exact ⟨hy1, hy2, hm1, hm2⟩
        · rename_i hcond
          simp only [Bool.or_eq_true, Bool.not_eq_true'] at hcond
          push_neg at hcond
          obtain ⟨hcy, hcm⟩ := hcond
          have hcm2 : (1 ≤ mv && mv ≤ 12) = true := by
            cases h : (1 ≤ mv && mv ≤ 12 : Bool)
            · exact absurd h hcm
            · rfl
          simp only [Bool.and_eq_true, decide_eq_true_eq] at hcm2
          have hcy2 : yearInRange yv = true := by
            cases h : yearInRange yv
            · exact absurd h hcy
            · rfl
          exact dateInRange_update _ _ _ _ _ hcy2 hcm2
  · rw [initApp]
    exact ⟨by simpa [updateCalendar] using hnow.1, by simpa [updateCalendar] using hnow.2.1,
           by simpa [updateCalendar] using hnow.2.2.1, by simpa [updateCalendar] using hnow.2.2.2⟩

theorem navigation_preserves_range_witness :
    dateInRange (changeMonth WriteOutcome.ok tinyState 1) ∧
    dateInRange (changeYear WriteOutcome.ok tinyState 1) ∧
    dateInRange (onUpdateButtonClick WriteOutcome.ok tinyState
      (Sel.num 2024) (Sel.num 2)).1 ∧
    dateInRange (initApp WriteOutcome.ok [] 2025 5) :=
  navigation_preserves_range WriteOutcome.ok tinyState (by decide) 1
    (Sel.num 2024) (Sel.num 2) [] 2025 5 (by decide)

end HabitsTracker
